import Mathlib

/-!
Verification of the two-notebook feature-engineering / model-selection pipeline
(`(2)automated_feature_engineering.ipynb`, `(4)automated_model_selection_and_analysis.ipynb`).

The notebooks are orchestration code over `pandas`, `featuretools` and `h2o`.
The shallow embedding below translates, from the notebook source:
  * the two custom feature primitives (`anger_words_count`,
    `count_long_dreaming_sessions`);
  * the label-strip / target-extraction / label-reattachment sequence of
    notebook (2);
  * the `unknown_to_nan` post-processing step (imported from `utils`, which is
    not part of the repository sources; modelled from the spec);
  * the entity-set assembly, surrogate-index creation, relationship
    declaration and feature-definition replay (the featuretools surface the
    notebooks use; the library internals are modelled from the spec contract
    and the notebooks own description of the API);
  * the submission-writer cell of notebook (4), with pandas
    index-alignment semantics for column assignment;
  * the name environment of notebook (4), to settle the undefined-name claim.

Machine integers do not occur (Python integers are unbounded; the numeric
session values are embedded as rationals).
-/

namespace MLPipeline

/-! ### Custom aggregation primitive: `count_long_dreaming_sessions`

Source (notebook (2)):
```
def count_long_dreaming_sessions(seconds_elapsed):
    df = pd.DataFrame({'seconds_elapsed': seconds_elapsed})
    return len(df[df['seconds_elapsed'] >= 3600.0])
```
The pandas boolean filter keeps exactly the rows whose value is `>= 3600.0`;
`len` counts them.  Values are embedded as rationals (the concrete inputs in
the spec are small integers, for which float comparison is exact). -/

def count_long_dreaming_sessions (seconds_elapsed : List ℚ) : ℕ :=
  (seconds_elapsed.filter (fun x => 3600 ≤ x)).length

/-! ### Custom transform primitive: `anger_words_count`

Source (notebook (2)):
```
def anger_words_count(column, anger_words=['hate', 'furious', 'terrible',
                                           'disgusting', 'shameful']):
    counts = [np.sum([review.lower().count(anger_word)
                      for anger_word in anger_words]) for review in column]
    return counts
```
`str.count` counts non-overlapping substring occurrences, scanning left to
right and resuming after each match.  The review is lowercased, the keywords
are used as written.  Strings are embedded as `List Char` (Lean `String`
internals do not reduce under `decide`).

No cell of notebook (2) imports numpy, so the name `np` in the body is
unresolved: Python looks `np` up in the function globals (the notebook
namespace) at call time, and applying the function to a nonempty column
raises NameError before any count is produced (an empty column never
evaluates the comprehension body, so it returns []).  The embedding keeps the
intended per-row computation as `keywordCountsOf` and models the call
semantics, name resolution included, in `anger_words_count`. -/

/-- Left-to-right scan for `countOccurrences`, structurally recursive on a
fuel bound; each step consumes at least one character of the haystack, so fuel
equal to the haystack length is enough. -/
def countOccAux (needle : List Char) : ℕ → List Char → ℕ
  | 0, _ => 0
  | _ + 1, [] => 0
  | fuel + 1, c :: rest =>
    if needle ≠ [] ∧ needle.isPrefixOf (c :: rest) then
      1 + countOccAux needle fuel (rest.drop (needle.length - 1))
    else
      countOccAux needle fuel rest

/-- Non-overlapping substring-occurrence count, the semantics of Python
`str.count`: scan left to right; on a match, resume after the matched text. -/
def countOccurrences (needle hay : List Char) : ℕ :=
  countOccAux needle hay.length hay

/-- Python `str.lower` on the character-list embedding of a string. -/
def lowercase (s : List Char) : List Char := s.map Char.toLower

def default_anger_words : List (List Char) :=
  ["hate".data, "furious".data, "terrible".data, "disgusting".data, "shameful".data]

/-- The computation the body of `anger_words_count` describes: per review, the
sum over the keyword set of the case-insensitive (review lowercased)
substring counts. -/
def keywordCountsOf (column : List (List Char))
    (anger_words : List (List Char) := default_anger_words) : List ℕ :=
  column.map (fun review =>
    (anger_words.map (fun w => countOccurrences w (lowercase review))).sum)

/-- The names bound in the notebook (2) namespace, in first-binding order,
over all its cells: the imports of the first and the custom-primitives cell,
the data frames, `targets`, the entity sets, the relationships, the custom
primitives and the feature matrices.  No cell imports numpy, so `np` is never
bound. -/
def notebook2Names : List String :=
  ["pd", "ft", "unknown_to_nan", "date_variables", "users_df", "users_test_df",
   "buckets_df", "sessions_df", "targets", "es", "es_test", "id_to_id",
   "bucket_to_bucket", "id_to_id_test", "bucket_to_bucket_test",
   "make_agg_primitive", "make_trans_primitive", "Text", "Numeric",
   "Categorical", "anger_words_count", "AngerWordsCount",
   "count_long_dreaming_sessions", "CountLongDreamingSessions",
   "feature_definitions", "aggregations", "transformations", "feature_matrix",
   "feature_matrix_test"]

/-- The custom transform primitive with Python call semantics: the
comprehension body evaluates `np.sum`, resolving `np` in the enclosing
namespace `globalsEnv` at call time; when `np` is unbound and the column is
nonempty the call raises NameError, otherwise the per-row keyword counts are
returned. -/
def anger_words_count (globalsEnv : List String) (column : List (List Char))
    (anger_words : List (List Char) := default_anger_words) :
    Except String (List ℕ) :=
  if column ≠ [] ∧ "np" ∉ globalsEnv then
    Except.error "NameError: name np is not defined"
  else
    Except.ok (keywordCountsOf column anger_words)

/-! ### Post-processing: `unknown_to_nan`

The notebook imports `unknown_to_nan` from `utils`, which is not among the
repository sources.  Modelled from the spec: scan the materialized matrix and
replace every library-specific "no aggregatable children" sentinel (the
`unknown` value) with the explicit missing-value marker (`nan`), leaving every
other cell — true zeros included — unchanged, and performing no imputation. -/

/-- A cell of the materialized feature matrix: the library "unknown" sentinel,
the explicit missing-value marker, or an ordinary value. -/
inductive Cell where
  | unknown : Cell
  | nan : Cell
  | val : ℚ → Cell
deriving DecidableEq

/-- Modelled from the spec: the cellwise conversion performed by
`utils.unknown_to_nan` — the `unknown` sentinel becomes the missing marker,
every other cell is returned unchanged. -/
def convertCell : Cell → Cell
  | .unknown => .nan
  | c => c

/-- Modelled from the spec: `utils.unknown_to_nan` applied to a whole data
frame (a list of rows of cells). -/
def unknown_to_nan (df : List (List Cell)) : List (List Cell) :=
  df.map (List.map convertCell)

/-! ### Notebook (2): label removal, target extraction, label reattachment

Source:
```
users_df.sort_values('id', inplace=True)
targets = users_df['country_destination'].values
users_df.drop('country_destination', axis=1, inplace=True)
...    # entity sets built from the label-stripped frame, then
feature_matrix, feature_definitions = ft.dfs(entityset=es, target_entity='users', ...)
feature_matrix = unknown_to_nan(df=feature_matrix)
feature_matrix['country_destination'] = targets
```
`targets` is a numpy array, so the final assignment is positional (no pandas
index alignment).  Deep feature synthesis is an external library call; its row
order is modelled from the spec: one row per target-entity instance, ordered
by key.  The synthesized features are an arbitrary function of the
label-stripped user row, which the theorems quantify over. -/

/-- A training user row: key, label (`country_destination`, label-encoded) and
the remaining attributes. -/
structure UserRow where
  id : ℕ
  label : ℕ
  attrs : List ℚ
deriving DecidableEq

/-- A user row after `drop('country_destination', axis=1)`. -/
structure StrippedUser where
  id : ℕ
  attrs : List ℚ
deriving DecidableEq

/-- `users_df.drop('country_destination', axis=1)` on one row. -/
def stripLabel (u : UserRow) : StrippedUser := ⟨u.id, u.attrs⟩

/-- `users_df.sort_values('id')`. -/
def sortUsersById (users : List UserRow) : List UserRow :=
  List.insertionSort (fun a b => a.id ≤ b.id) users

/-- `targets = users_df['country_destination'].values`, taken after the sort. -/
def targetsOf (users : List UserRow) : List ℕ :=
  (sortUsersById users).map (fun u => u.label)

/-- One row of the synthesized feature matrix: key plus feature cells. -/
structure FeatRow where
  id : ℕ
  feats : List Cell
deriving DecidableEq

/-- Modelled from the spec (§4.2): the DFS feature matrix has one row per
target-entity instance, ordered by key; every synthesized or original feature
is a function `synth` of the label-stripped user row only, since the entity
set is built after the label column is dropped. -/
def featureMatrixOf (synth : StrippedUser → List Cell) (users : List UserRow) :
    List FeatRow :=
  (sortUsersById users).map (fun u => ⟨u.id, synth (stripLabel u)⟩)

/-- `unknown_to_nan` applied to the keyed feature matrix. -/
def postprocessMatrix (m : List FeatRow) : List FeatRow :=
  m.map (fun r => ⟨r.id, r.feats.map convertCell⟩)

/-- One row of the final persisted training matrix. -/
structure FinalRow where
  id : ℕ
  feats : List Cell
  label : ℕ
deriving DecidableEq

/-- `feature_matrix['country_destination'] = targets`: `targets` is a numpy
array, so the assignment is positional. -/
def reattachTargets (m : List FeatRow) (t : List ℕ) : List FinalRow :=
  (m.zip t).map (fun p => ⟨p.1.id, p.1.feats, p.2⟩)

/-- The full label round-trip of notebook (2): sort, strip the label,
synthesize, post-process, reattach the targets positionally. -/
def finalTrainMatrix (synth : StrippedUser → List Cell) (users : List UserRow) :
    List FinalRow :=
  reattachTargets (postprocessMatrix (featureMatrixOf synth users)) (targetsOf users)

/-! ### Notebook (4): submission writer

Source:
```
predictions = model.predict(test)
answers = pd.DataFrame()
answers['id'] = pd.read_csv('(0)data/test_users.csv').sort_values('id')['id']
answers['country'] = predictions.as_data_frame()['predict']
answers.set_index('id', inplace=True)
answers.to_csv('answers.csv')
```
pandas semantics embedded here:
  * `read_csv` gives the raw ids a positional RangeIndex 0..n-1;
  * `sort_values('id')` reorders the rows by id, keeping the original index
    labels (a permutation);
  * assigning a Series to a column of the EMPTY frame `answers` adopts the
    Series index and order as they are;
  * assigning the RangeIndexed prediction Series to `answers['country']`
    ALIGNS BY INDEX LABEL: the answers row labelled `j` receives prediction
    `j`, not the prediction at its current position.
The predictions themselves are positional: the k-th prediction belongs to the
k-th row of the id-sorted test feature matrix. -/

/-- `sort_values('id')` on a Series given as (index label, id) pairs: sort by
the id value, keeping the labels. -/
def sortValuesById (s : List (ℕ × ℕ)) : List (ℕ × ℕ) :=
  List.insertionSort (fun a b => a.2 ≤ b.2) s

/-- The submission-writer cell: returns the rows of `answers` as
(id, country) pairs, in frame order.  `rawIds` are the ids in raw-file order;
`preds` are the model predictions in feature-matrix (id-sorted) row order.
The country of the row labelled `j` is prediction `j` (index alignment). -/
def submissionWriter (rawIds : List ℕ) (preds : List ℕ) : List (ℕ × Option ℕ) :=
  (sortValuesById rawIds.enum).map (fun p => (p.2, preds.enum.lookup p.1))

/-- The attachment the claim asserts: each id of the id-sorted test set paired
with the prediction the model produced for that id's feature-matrix row (the
k-th sorted id with the k-th prediction). -/
def featureRowPredictions (rawIds : List ℕ) (preds : List ℕ) : List (ℕ × ℕ) :=
  ((sortValuesById rawIds.enum).map (fun p => p.2)).zip preds

/-! ### Featuretools entity sets

The featuretools library itself is not part of the repository sources; the
subset the notebooks call is modelled from the spec (§4.1, §4.2) and from the
notebook's own description of the API (an absent index column is created as a
monotonically increasing integer column, with a warning that `make_index`
suppresses; relationships must be one-to-many with a unique parent side).
All cell values are embedded as rationals. -/

structure DataFrame where
  cols : List String
  rows : List (List ℚ)
deriving DecidableEq

/-- Position of a column name in a column list. -/
def colIndexOf (cols : List String) (c : String) : Option ℕ :=
  match cols with
  | [] => none
  | x :: xs => if x = c then some 0 else (colIndexOf xs c).map (· + 1)

/-- The values of a named column, in row order ([] if the column is absent). -/
def DataFrame.column (df : DataFrame) (c : String) : List ℚ :=
  match colIndexOf df.cols c with
  | some i => df.rows.map (fun r => r.getD i 0)
  | none => []

structure Entity where
  name : String
  df : DataFrame
  index : String
deriving DecidableEq

/-- A declared one-to-many relationship, parent variable listed first, as in
`ft.Relationship(es['users']['id'], es['sessions']['user_id'])`. -/
structure Relationship where
  parentEntity : String
  parentCol : String
  childEntity : String
  childCol : String
deriving DecidableEq

structure EntitySet where
  id : String
  entities : List Entity
  relationships : List Relationship
  warnings : List String
deriving DecidableEq

def EntitySet.entity (es : EntitySet) (n : String) : Option Entity :=
  es.entities.find? (fun e => e.name == n)

/-- The values of column `col` of entity `ent` ([] if either is absent). -/
def EntitySet.columnValues (es : EntitySet) (ent col : String) : List ℚ :=
  match es.entity ent with
  | some e => e.df.column col
  | none => []

/-- Modelled from the spec (§4.1 side effect) and the notebook description of
`EntitySet.entity_from_dataframe`: if the declared index column is absent from
the data frame, a monotonically increasing integer surrogate column is created
and inserted at position 0 (`df.insert(0, index, range(len(df)))`), with a
warning unless `make_index` is enabled; the data frame is held by the new
entity itself (independent containers per the spec lifecycle, §3). -/
def entityFromDataframe (es : EntitySet) (entityId : String) (df : DataFrame)
    (index : String) (makeIndex : Bool := false) : EntitySet :=
  if index ∈ df.cols then
    { es with entities := es.entities ++ [⟨entityId, df, index⟩] }
  else
    { es with
      entities := es.entities ++
        [⟨entityId,
          ⟨index :: df.cols, df.rows.enum.map (fun p => ((p.1 : ℚ) :: p.2))⟩,
          index⟩],
      warnings :=
        if makeIndex then es.warnings
        else es.warnings ++
          ["index " ++ index ++ " not found in dataframe, creating new integer column"] }

/-- Modelled from the spec (§4.1 failure mode): declaring a relationship whose
parent-side column is not unique is a configuration error, rejected at
declaration time — before any synthesis runs. -/
def addRelationship (es : EntitySet) (r : Relationship) : Except String EntitySet :=
  if (es.columnValues r.parentEntity r.parentCol).Nodup then
    Except.ok { es with relationships := es.relationships ++ [r] }
  else
    Except.error "parent-side column is not unique: relationship rejected"

/-- `es.add_relationships([...])`: declare relationships in order, stopping at
the first rejection. -/
def addRelationshipList (es : EntitySet) : List Relationship → Except String EntitySet
  | [] => Except.ok es
  | r :: rs =>
    match addRelationship es r with
    | Except.ok es2 => addRelationshipList es2 rs
    | Except.error m => Except.error m

/-- The training entity-set assembly of notebook (2): users (index `id`),
sessions (index `data_id`, `make_index=True`), buckets (index `bucket_id`),
before any relationship is declared. -/
def buildTrainES (users sessions buckets : DataFrame) : EntitySet :=
  entityFromDataframe
    (entityFromDataframe
      (entityFromDataframe ⟨"bookings", [], [], []⟩ "users" users "id")
      "sessions" sessions "data_id" true)
    "buckets" buckets "bucket_id"

/-- The testing entity-set assembly of notebook (2): identical, except the
sessions call passes `index='data_id'` WITHOUT `make_index=True`. -/
def buildTestES (usersTest sessions buckets : DataFrame) : EntitySet :=
  entityFromDataframe
    (entityFromDataframe
      (entityFromDataframe ⟨"bookings_test", [], [], []⟩ "users" usersTest "id")
      "sessions" sessions "data_id")
    "buckets" buckets "bucket_id"

/-- The relationships notebook (2) declares on the training entity set. -/
def trainRelationships : List Relationship :=
  [⟨"users", "id", "sessions", "user_id"⟩,
   ⟨"buckets", "bucket_id", "users", "age_gender_bucket"⟩]

/-- What C8 asserts of an assembled entity set: the sessions entity carries a
`data_id` surrogate key column holding the monotonically increasing values
0..n-1, and no relationship has been declared yet. -/
def surrogateKeyPresent (es : EntitySet) (n : ℕ) : Prop :=
  (∃ e, es.entity "sessions" = some e ∧ "data_id" ∈ e.df.cols ∧ e.index = "data_id") ∧
  es.columnValues "sessions" "data_id" = (List.range n).map (fun k : ℕ => (k : ℚ)) ∧
  List.Sorted (· < ·) (es.columnValues "sessions" "data_id") ∧
  es.relationships = []

/-! ### Feature definitions and replay

Modelled from the spec (§4.2): `ft.dfs` produces a symbolic, replayable
feature-definition list determined by the schema (table/column structure),
the target entity and the primitive lists; `ft.calculate_feature_matrix`
evaluates a definition list against any entity set. -/

/-- A symbolic feature definition: an original attribute of the target table,
or an aggregation primitive applied to a child-table column. -/
inductive FeatureDef where
  | original : String → FeatureDef
  | agg : String → String → String → FeatureDef
deriving DecidableEq

/-- The column name a feature definition materializes as. -/
def featName : FeatureDef → String
  | .original c => c
  | .agg p e c => p ++ "(" ++ e ++ "." ++ c ++ ")"

/-- The table/column structure of an entity set ("schema-compatible" means
equal schemas). -/
def EntitySet.schema (es : EntitySet) : List (String × List String) :=
  es.entities.map (fun e => (e.name, e.df.cols))

/-- Modelled from the spec: the feature-definition list `ft.dfs` produces is a
function of the schema, the target entity and the aggregation-primitive names
only: original target attributes, then one aggregation feature per primitive,
non-target table and column. -/
def dfsDefs (schema : List (String × List String)) (target : String)
    (aggPrims : List String) : List FeatureDef :=
  (match schema.lookup target with
   | some cols => cols.map FeatureDef.original
   | none => []) ++
  aggPrims.flatMap (fun p =>
    (schema.filter (fun t => t.1 != target)).flatMap (fun t =>
      t.2.map (fun c => FeatureDef.agg p t.1 c)))

/-- Evaluation of an aggregation primitive over the matching child values;
the custom long-session primitive is among the available primitives. -/
def applyAggPrim (p : String) (vals : List ℚ) : ℚ :=
  if p = "count" then (vals.length : ℚ)
  else if p = "sum" then vals.sum
  else if p = "count_long_dreaming_sessions" then
    (count_long_dreaming_sessions vals : ℚ)
  else 0

/-- The value of column `c` in a row of entity `target` (0 if absent). -/
def rowValue (es : EntitySet) (target : String) (row : List ℚ) (c : String) : ℚ :=
  match es.entity target with
  | some e =>
    match colIndexOf e.df.cols c with
    | some i => row.getD i 0
    | none => 0
  | none => 0

/-- The values of column `ccol` over the child rows related (through the
declared relationship from `target` to `child`) to the parent row whose key is
`keyVal`. -/
def childValuesFor (es : EntitySet) (target child ccol : String) (keyVal : ℚ) :
    List ℚ :=
  match es.relationships.find?
      (fun r => r.parentEntity == target && r.childEntity == child) with
  | some r =>
    match es.entity child with
    | some ce =>
      match colIndexOf ce.df.cols r.childCol, colIndexOf ce.df.cols ccol with
      | some fk, some ci =>
        (ce.df.rows.filter (fun row => decide (row.getD fk 0 = keyVal))).map
          (fun row => row.getD ci 0)
      | _, _ => []
    | none => []
  | none => []

/-- Evaluate one feature definition on one target row. -/
def evalFeatureDef (es : EntitySet) (target : String) (keyVal : ℚ)
    (row : List ℚ) : FeatureDef → ℚ
  | .original c => rowValue es target row c
  | .agg p child ccol => applyAggPrim p (childValuesFor es target child ccol keyVal)

/-- A materialized feature matrix: column names, row keys, rows. -/
structure FeatureMatrix where
  cols : List String
  rowKeys : List ℚ
  rows : List (List ℚ)
deriving DecidableEq

/-- Modelled from the spec: `ft.calculate_feature_matrix(features=defs,
entityset=es)` — one row per target-entity instance, one column per feature
definition, in definition order. -/
def calculate_feature_matrix (defs : List FeatureDef) (es : EntitySet)
    (target : String) : FeatureMatrix :=
  match es.entity target with
  | some e =>
    { cols := defs.map featName,
      rowKeys := e.df.column e.index,
      rows := e.df.rows.map (fun row =>
        defs.map (evalFeatureDef es target (rowValue es target row e.index) row)) }
  | none => { cols := defs.map featName, rowKeys := [], rows := [] }

/-! ### Notebook (2) as a state-passing pipeline (frame conditions)

The notebook holds the two entity sets in the variables `es` and `es_test`;
the steps below mirror the cells that assemble and synthesize them.  Modelled
from the spec lifecycle (§3): the two instances are independent containers. -/

structure NotebookState where
  esTrain : EntitySet
  esTest : EntitySet
deriving DecidableEq

/-- The cell assembling the training entity set. -/
def assembleTrain (s : NotebookState) (users sessions buckets : DataFrame) :
    NotebookState :=
  { s with esTrain := buildTrainES users sessions buckets }

/-- The cell assembling the testing entity set. -/
def assembleTest (s : NotebookState) (usersTest sessions buckets : DataFrame) :
    NotebookState :=
  { s with esTest := buildTestES usersTest sessions buckets }

/-- The synthesis cells: `ft.dfs` on the training set and
`ft.calculate_feature_matrix` replaying its definitions on the testing set;
both read the containers and return the matrices with the state. -/
def runSynthesis (s : NotebookState) (aggPrims : List String) :
    (FeatureMatrix × FeatureMatrix) × NotebookState :=
  let defs := dfsDefs s.esTrain.schema "users" aggPrims
  ((calculate_feature_matrix defs s.esTrain "users",
    calculate_feature_matrix defs s.esTest "users"), s)

/-! ### Notebook (4): the name environment of the prediction cell

The cells of `(4)automated_model_selection_and_analysis.ipynb` bind, in
order, the names listed below; the "Get Predictions" cell then evaluates
`model.predict(test)`.  A minimal Python expression evaluator settles what
that evaluation does: names are looked up in the environment; an absent name
is a NameError. -/

inductive PExpr where
  | name : String → PExpr
  | attr : PExpr → String → PExpr
  | call : PExpr → PExpr → PExpr

inductive PVal where
  | obj : String → PVal
deriving DecidableEq

/-- Python expression evaluation, restricted to name lookup, attribute access
and single-argument calls; an unbound name raises NameError. -/
def evalPExpr (env : List (String × PVal)) : PExpr → Except String PVal
  | .name s =>
    match env.lookup s with
    | some v => Except.ok v
    | none => Except.error ("NameError: name " ++ s ++ " is not defined")
  | .attr e f =>
    match evalPExpr env e with
    | Except.ok (PVal.obj t) => Except.ok (PVal.obj (t ++ "." ++ f))
    | Except.error m => Except.error m
  | .call f a =>
    match evalPExpr env f with
    | Except.error m => Except.error m
    | Except.ok fv =>
      match evalPExpr env a with
      | Except.error m => Except.error m
      | Except.ok _ => Except.ok fv

/-- The names bound by the cells of notebook (4) that precede the
"Get Predictions" cell, in execution order (imports, seed, file paths, the
imported frames, the AutoML handle, leaderboard, model path, loaded model).
The imported test frame is bound to `X_test`; no cell binds `test`. -/
def definedBeforePredict : List String :=
  ["pd", "h2o", "H2OAutoML", "SEED", "training_filepath", "testing_filepath",
   "X_train", "train_variables", "response_variable", "unrelated_variables",
   "variable", "aml", "lb", "model_path", "X_test", "model"]

def envBeforePredict : List (String × PVal) :=
  definedBeforePredict.map (fun n => (n, PVal.obj n))

/-- The "Get Predictions" cell: `model.predict(test)`. -/
def getPredictionsExpr : PExpr :=
  PExpr.call (PExpr.attr (PExpr.name "model") "predict") (PExpr.name "test")

end MLPipeline

namespace MLPipeline

/-! ## Theorems -/

/-- C2: the long-session aggregate on [100, 4000, 3600, 3700] with threshold
3600 and a ">=" comparison does NOT return 2: with the inclusive boundary the
spec itself demands, the boundary value 3600 is counted alongside 4000 and
3700, so the code returns 3. -/
theorem count_long_sessions_not_two :
    count_long_dreaming_sessions [100, 4000, 3600, 3700] ≠ 2 := by
  decide

/-- C2 (amended): the long-session aggregate, applied to
[100, 4000, 3600, 3700] with threshold 3600 and a ">=" comparison, returns 3,
the boundary value 3600 being included per ">=" semantics. -/
theorem count_long_sessions_boundary_inclusive :
    count_long_dreaming_sessions [100, 4000, 3600, 3700] = 3 ∧
    count_long_dreaming_sessions [100, 4000, 3700] = 2 ∧
    count_long_dreaming_sessions [3600] = 1 := by
  decide

/-- C5 (evaluation at the failing input): notebook (2) never binds `np`
(numpy is not imported in any cell), so applying the keyword-count transform
in the notebook namespace to the row "This is terrible and disgusting" with
keyword set {"terrible", "disgusting"} raises NameError instead of returning
a count — while the counting the body describes would indeed yield 2 for
that row (case-insensitive, non-overlapping substring occurrences, summed
over the keyword set). -/
theorem anger_words_count_name_error :
    "np" ∉ notebook2Names ∧
    anger_words_count notebook2Names ["This is terrible and disgusting".data]
        ["terrible".data, "disgusting".data]
      = Except.error "NameError: name np is not defined" ∧
    keywordCountsOf ["This is terrible and disgusting".data]
        ["terrible".data, "disgusting".data] = [2] := by
  refine ⟨by decide, by rfl, by decide⟩

/-- C6: the post-processing step maps the "unknown" sentinel to the explicit
missing marker, leaves every genuine value (zero included) unchanged, leaves
the missing marker itself untouched (no imputation), keeps sentinel cells and
genuine-zero cells distinguishable, and is applied cellwise without changing
the shape of the matrix. -/
theorem unknown_to_nan_spec :
    convertCell .unknown = .nan ∧
    (∀ q : ℚ, convertCell (.val q) = .val q) ∧
    convertCell .nan = .nan ∧
    convertCell .unknown ≠ convertCell (.val 0) ∧
    (∀ df : List (List Cell),
      unknown_to_nan df = df.map (List.map convertCell) ∧
      (unknown_to_nan df).length = df.length) := by
  refine ⟨rfl, fun q => rfl, rfl, by decide, fun df => ⟨rfl, by simp [unknown_to_nan]⟩⟩

/-- The final training matrix is the id-sorted user list with, per user, the
post-processed synthesized features and that user's own label. -/
lemma finalTrainMatrix_eq (synth : StrippedUser → List Cell)
    (users : List UserRow) :
    finalTrainMatrix synth users =
      (sortUsersById users).map
        (fun u => ⟨u.id, (synth (stripLabel u)).map convertCell, u.label⟩) := by
  unfold finalTrainMatrix reattachTargets postprocessMatrix featureMatrixOf targetsOf
  rw [List.map_map, List.zip_map', List.map_map]
  rfl

/-- C3: the label column is removed before feature synthesis — in the
embedding the synthesized features are an arbitrary function of the
label-stripped user row, so no synthesized feature can depend on the label —
and after synthesis and post-processing the reattached label of every row of
the final training matrix is the original label of the user that row was built
from (one row per user). -/
theorem label_roundtrip (synth : StrippedUser → List Cell) (users : List UserRow) :
    (finalTrainMatrix synth users).length = users.length ∧
    ∀ r ∈ finalTrainMatrix synth users, ∃ u ∈ users,
      r.id = u.id ∧ r.label = u.label ∧
      r.feats = (synth (stripLabel u)).map convertCell := by
  constructor
  · rw [finalTrainMatrix_eq, List.length_map]
    exact (List.perm_insertionSort _ users).length_eq
  · intro r hr
    rw [finalTrainMatrix_eq] at hr
    obtain ⟨u, hu, rfl⟩ := List.mem_map.1 hr
    exact ⟨u, (List.perm_insertionSort _ users).mem_iff.1 hu, rfl, rfl, rfl⟩

/-- C1 (evaluation at the failing input): with the raw test-users file holding
ids in the order [2, 1] and the model producing predictions [10, 20] for the
id-sorted feature rows (10 for id 1, 20 for id 2), the submission writer's
index-aligned country assignment attaches 20 to id 1 and 10 to id 2 — the
opposite of the prediction each key's feature row produced. -/
theorem submission_writer_misaligns :
    submissionWriter [2, 1] [10, 20] = [(1, some 20), (2, some 10)] ∧
    featureRowPredictions [2, 1] [10, 20] = [(1, 10), (2, 20)] ∧
    submissionWriter [2, 1] [10, 20] ≠
      (featureRowPredictions [2, 1] [10, 20]).map (fun p => (p.1, some p.2)) := by
  refine ⟨by decide, by decide, by decide⟩

/-- The first column of a data frame extended with the enumerated surrogate
column holds exactly 0..n-1. -/
lemma enumFirstColumn (rows : List (List ℚ)) :
    (rows.enum.map (fun p => ((p.1 : ℚ) :: p.2))).map (fun r => r.getD 0 0)
      = (List.range rows.length).map (fun k : ℕ => (k : ℚ)) := by
  rw [List.map_map]
  have h : ((fun r : List ℚ => r.getD 0 0) ∘ fun p : ℕ × List ℚ => ((p.1 : ℚ) :: p.2))
      = (fun k : ℕ => (k : ℚ)) ∘ Prod.fst := rfl
  rw [h, ← List.map_map, List.enum_map_fst]

/-- 0..n-1 cast into ℚ is strictly increasing. -/
lemma rangeCastSorted (n : ℕ) :
    List.Sorted (· < ·) ((List.range n).map (fun k : ℕ => (k : ℚ))) :=
  List.Pairwise.map _ (fun _ _ h => by exact_mod_cast h) (List.pairwise_lt_range n)

/-- C8: in both the training and the testing entity-set assembly, the Sessions
table — which has no natural unique column (`data_id` is not among its
columns, while Users and Buckets carry their natural keys) — receives a
synthesized monotonically increasing surrogate key column `data_id` holding
0..n-1, and this happens before any relationship is declared (the assembled
entity sets carry no relationships yet). -/
theorem surrogate_key_synthesized
    (users sessions buckets usersTest : DataFrame)
    (hid : "id" ∈ users.cols) (hidT : "id" ∈ usersTest.cols)
    (hbid : "bucket_id" ∈ buckets.cols)
    (hs : "data_id" ∉ sessions.cols) :
    surrogateKeyPresent (buildTrainES users sessions buckets) sessions.rows.length ∧
    surrogateKeyPresent (buildTestES usersTest sessions buckets) sessions.rows.length := by
  have key : ∀ (esid : String) (us sess bks : DataFrame) (mi : Bool),
      "id" ∈ us.cols → "bucket_id" ∈ bks.cols → "data_id" ∉ sess.cols →
      surrogateKeyPresent
        (entityFromDataframe
          (entityFromDataframe
            (entityFromDataframe ⟨esid, [], [], []⟩ "users" us "id")
            "sessions" sess "data_id" mi)
          "buckets" bks "bucket_id")
        sess.rows.length := by
    intro esid us sess bks mi hu hb hsess
    have hE : entityFromDataframe
        (entityFromDataframe
          (entityFromDataframe ⟨esid, [], [], []⟩ "users" us "id")
          "sessions" sess "data_id" mi)
        "buckets" bks "bucket_id"
        = ⟨esid,
           [⟨"users", us, "id"⟩,
            ⟨"sessions",
             ⟨"data_id" :: sess.cols, sess.rows.enum.map (fun p => ((p.1 : ℚ) :: p.2))⟩,
             "data_id"⟩,
            ⟨"buckets", bks, "bucket_id"⟩],
           [],
           (if mi then []
            else ["index " ++ "data_id" ++ " not found in dataframe, creating new integer column"])⟩ := by
      unfold entityFromDataframe
      rw [if_pos hu, if_neg hsess, if_pos hb]
      rfl
    rw [hE]
    refine ⟨⟨_, rfl, List.mem_cons_self _ _, rfl⟩, ?_, ?_, rfl⟩
    · exact enumFirstColumn sess.rows
    · show List.Sorted (· < ·)
        ((sess.rows.enum.map (fun p => ((p.1 : ℚ) :: p.2))).map (fun r => r.getD 0 0))
      rw [enumFirstColumn]
      exact rangeCastSorted sess.rows.length
  exact ⟨key _ _ _ _ true hid hbid hs, key _ _ _ _ false hidT hbid hs⟩

/-- Concrete Users table for the witnesses: natural key `id`, bucket foreign
key, one categorical attribute. -/
def usersDF : DataFrame :=
  ⟨["id", "age_gender_bucket", "signup_flow"], [[1, 7, 0], [2, 8, 1], [3, 7, 0]]⟩

/-- Concrete Sessions table for the witnesses: no natural key. -/
def sessionsDF : DataFrame :=
  ⟨["user_id", "secs_elapsed"], [[1, 100], [1, 4000], [2, 3600]]⟩

/-- Concrete Buckets table for the witnesses: natural key `bucket_id`. -/
def bucketsDF : DataFrame := ⟨["bucket_id"], [[7], [8]]⟩

/-- Concrete test Users table for the witnesses. -/
def usersTestDF : DataFrame :=
  ⟨["id", "age_gender_bucket", "signup_flow"], [[4, 8, 0]]⟩

/-- C8 witness: on the concrete tables, both assembled entity sets carry the
synthesized `data_id` surrogate key 0..2 on Sessions, before any
relationship. -/
theorem surrogate_key_synthesized_witness :
    surrogateKeyPresent (buildTrainES usersDF sessionsDF bucketsDF) 3 ∧
    surrogateKeyPresent (buildTestES usersTestDF sessionsDF bucketsDF) 3 :=
  surrogate_key_synthesized usersDF sessionsDF bucketsDF usersTestDF
    (by decide) (by decide) (by decide) (by decide)

/-- C7: a relationship declaration is accepted exactly when its parent-side
("one" side) column is unique: every accepted declaration's parent column is
duplicate-free (and the only change is the appended relationship), and a
declaration whose parent-side column is not unique is rejected with a
configuration error — at declaration time, before any synthesis runs. -/
theorem relationship_parent_unique :
    (∀ (es : EntitySet) (r : Relationship) (es2 : EntitySet),
        addRelationship es r = Except.ok es2 →
        (es.columnValues r.parentEntity r.parentCol).Nodup ∧
        es2 = { es with relationships := es.relationships ++ [r] }) ∧
    (∀ (es : EntitySet) (r : Relationship),
        ¬ (es.columnValues r.parentEntity r.parentCol).Nodup →
        addRelationship es r =
          Except.error "parent-side column is not unique: relationship rejected") := by
  constructor
  · intro es r es2 h
    by_cases hn : (es.columnValues r.parentEntity r.parentCol).Nodup
    · refine ⟨hn, ?_⟩
      unfold addRelationship at h
      rw [if_pos hn] at h
      injection h with h2
      exact h2.symm
    · unfold addRelationship at h
      rw [if_neg hn] at h
      exact Except.noConfusion h
  · intro es r hn
    unfold addRelationship
    rw [if_neg hn]

/-- An entity set whose `users` entity has a unique `id` column. -/
def esWithUniqueParent : EntitySet :=
  ⟨"w", [⟨"users", ⟨["id"], [[1], [2]]⟩, "id"⟩], [], []⟩

/-- An entity set whose `users` entity has a duplicated `id` column. -/
def esWithDupParent : EntitySet :=
  ⟨"w2", [⟨"users", ⟨["id"], [[1], [1]]⟩, "id"⟩], [], []⟩

/-- The users-to-sessions relationship declaration of notebook (2). -/
def usersToSessions : Relationship := ⟨"users", "id", "sessions", "user_id"⟩

/-- C7 witness: on concrete entity sets, the declaration over the unique `id`
column is accepted (parent column duplicate-free, relationship appended), and
the same declaration over the duplicated column is rejected. -/
theorem relationship_parent_unique_witness :
    ((esWithUniqueParent.columnValues "users" "id").Nodup ∧
      ⟨"w", [⟨"users", ⟨["id"], [[1], [2]]⟩, "id"⟩], [usersToSessions], []⟩ =
        { esWithUniqueParent with
            relationships := esWithUniqueParent.relationships ++ [usersToSessions] }) ∧
    addRelationship esWithDupParent usersToSessions =
      Except.error "parent-side column is not unique: relationship rejected" :=
  ⟨relationship_parent_unique.1 esWithUniqueParent usersToSessions
      ⟨"w", [⟨"users", ⟨["id"], [[1], [2]]⟩, "id"⟩], [usersToSessions], []⟩ (by rfl),
    relationship_parent_unique.2 esWithDupParent usersToSessions (by decide)⟩

/-- C4: replaying the feature-definition list produced from the training
schema on any schema-compatible entity set yields a matrix with identical
column names in identical order (the definition-list names, in definition
order), differing only in its row set (the replayed matrix is keyed by the
other entity set's own target rows). -/
theorem replay_columns_deterministic
    (esA esB : EntitySet) (target : String) (aggPrims : List String)
    (hschema : esA.schema = esB.schema) :
    dfsDefs esB.schema target aggPrims = dfsDefs esA.schema target aggPrims ∧
    (calculate_feature_matrix (dfsDefs esA.schema target aggPrims) esB target).cols
      = (calculate_feature_matrix (dfsDefs esA.schema target aggPrims) esA target).cols ∧
    (calculate_feature_matrix (dfsDefs esA.schema target aggPrims) esB target).cols
      = (dfsDefs esA.schema target aggPrims).map featName ∧
    (∀ eB, esB.entity target = some eB →
      (calculate_feature_matrix (dfsDefs esA.schema target aggPrims) esB target).rowKeys
        = eB.df.column eB.index) := by
  refine ⟨by rw [hschema], ?_, ?_, ?_⟩
  · cases hB : esB.entity target <;> cases hA : esA.entity target <;>
      simp [calculate_feature_matrix, hB, hA]
  · cases hB : esB.entity target <;> simp [calculate_feature_matrix, hB]
  · intro eB hB
    simp [calculate_feature_matrix, hB]

/-- The assembled training entity set on the concrete witness tables. -/
def esTrainEx : EntitySet := buildTrainES usersDF sessionsDF bucketsDF

/-- The assembled testing entity set on the concrete witness tables. -/
def esTestEx : EntitySet := buildTestES usersTestDF sessionsDF bucketsDF

def aggPrimsEx : List String := ["count", "count_long_dreaming_sessions"]

/-- C4 witness: the training and testing entity sets over the concrete tables
are schema-compatible, and replaying the training feature definitions on the
testing set reproduces the training column names and order. -/
theorem replay_columns_witness :
    dfsDefs esTestEx.schema "users" aggPrimsEx
      = dfsDefs esTrainEx.schema "users" aggPrimsEx ∧
    (calculate_feature_matrix (dfsDefs esTrainEx.schema "users" aggPrimsEx) esTestEx "users").cols
      = (calculate_feature_matrix (dfsDefs esTrainEx.schema "users" aggPrimsEx) esTrainEx "users").cols ∧
    (calculate_feature_matrix (dfsDefs esTrainEx.schema "users" aggPrimsEx) esTestEx "users").cols
      = (dfsDefs esTrainEx.schema "users" aggPrimsEx).map featName ∧
    (∀ eB, esTestEx.entity "users" = some eB →
      (calculate_feature_matrix (dfsDefs esTrainEx.schema "users" aggPrimsEx) esTestEx "users").rowKeys
        = eB.df.column eB.index) :=
  replay_columns_deterministic esTrainEx esTestEx "users" aggPrimsEx (by decide)

/-- C9: the train and test entity sets are independent: assembling the test
set leaves the train set unchanged, assembling the train set leaves the test
set unchanged, feature synthesis reads both containers without modifying the
state, and after both assemblies each container is exactly the one built from
its own input tables — no data crosses between the partitions. -/
theorem train_test_independence
    (s : NotebookState) (users usersTest sessions buckets : DataFrame)
    (aggPrims : List String) :
    (assembleTest s usersTest sessions buckets).esTrain = s.esTrain ∧
    (assembleTrain s users sessions buckets).esTest = s.esTest ∧
    (runSynthesis s aggPrims).2 = s ∧
    (assembleTest (assembleTrain s users sessions buckets) usersTest sessions buckets).esTrain
      = buildTrainES users sessions buckets ∧
    (assembleTest (assembleTrain s users sessions buckets) usersTest sessions buckets).esTest
      = buildTestES usersTest sessions buckets :=
  ⟨rfl, rfl, rfl, rfl, rfl⟩

/-- C10: no cell of notebook (4) preceding the "Get Predictions" cell binds
the name `test` (the imported test frame is bound to `X_test`), so evaluating
`model.predict(test)` there raises a NameError for `test` and produces no
predictions. -/
theorem predict_cell_name_error :
    "test" ∉ definedBeforePredict ∧
    "X_test" ∈ definedBeforePredict ∧
    "model" ∈ definedBeforePredict ∧
    evalPExpr envBeforePredict getPredictionsExpr
      = Except.error "NameError: name test is not defined" := by
  exact ⟨by decide, by decide, by decide, by rfl⟩

end MLPipeline
